import Mathlib

/-!
Verification of `src/csv_comparision.py` (`compare_csv_files`).

The program reads two CSV files with `dtype=str`, `keep_default_na=False`
and `na_filter=False`, so every field is an opaque raw string.  Each data
frame is turned into a set of row tuples (lines 67-68), and the three
collections are computed by plain set operations (lines 71-73):

    common_rows      = df1_rows ∩ df2_rows
    missing_in_file2 = df1_rows - df2_rows   (left-only)
    missing_in_file1 = df2_rows - df1_rows   (right-only)

We embed tables as ordered column lists plus ordered lists of string rows,
row-key sets as `Finset (List String)`, and the pipeline of
`compare_csv_files` (read, schema check, comparison, conditional output
writing) as pure functions.  Python's `list(set)` materialization has an
unspecified iteration order; the embedding materializes the same elements
in first-occurrence input order, and no theorem below depends on that
order.
-/

/-- A row: the ordered raw text fields of one CSV record, exactly as read
(`dtype=str`, `keep_default_na=False`, `na_filter=False`). -/
abbrev Row := List String

/-- A table as produced by `pd.read_csv`: the ordered column names and the
ordered data rows. -/
structure Table where
  cols : List String
  rows : List Row
deriving DecidableEq

/-- Lines 67-68: `set(df.astype(str).itertuples(index=False, name=None))` —
the set of distinct row keys of a table.  `astype(str)` is the identity
here because every column already has dtype `str`. -/
def Table.rowKeys (t : Table) : Finset Row := t.rows.toFinset

/-- The three collections computed by the comparison. -/
structure ComparisonResult where
  common : Finset Row
  leftOnly : Finset Row
  rightOnly : Finset Row

/-- Lines 67-73: build the two row-key sets and compute
`common_rows = df1_rows ∩ df2_rows`, `missing_in_file2 = df1_rows - df2_rows`
and `missing_in_file1 = df2_rows - df1_rows`. -/
def compareTables (df1 df2 : Table) : ComparisonResult :=
  { common := df1.rowKeys ∩ df2.rowKeys
    leftOnly := df1.rowKeys \ df2.rowKeys
    rightOnly := df2.rowKeys \ df1.rowKeys }

/-- The five counts printed by the program (lines 76-80). -/
structure Stats where
  totalRowsLeft : Nat
  totalRowsRight : Nat
  identicalRows : Nat
  rowsMissingInRight : Nat
  rowsMissingInLeft : Nat
deriving DecidableEq

/-- Lines 76-80: `total_rows_file1 = len(df1)`, `total_rows_file2 = len(df2)`,
`identical_rows = len(common_rows)`,
`rows_missing_in_file2 = len(missing_in_file2)`,
`rows_missing_in_file1 = len(missing_in_file1)`. -/
def stats (df1 df2 : Table) : Stats :=
  { totalRowsLeft := df1.rows.length
    totalRowsRight := df2.rows.length
    identicalRows := (compareTables df1 df2).common.card
    rowsMissingInRight := (compareTables df1 df2).leftOnly.card
    rowsMissingInLeft := (compareTables df1 df2).rightOnly.card }

/-- Line 56: `set(df1.columns) != set(df2.columns)` — the schema-mismatch
warning condition, comparing the UNORDERED sets of column names. -/
def schemaWarning (df1 df2 : Table) : Bool :=
  decide (df1.cols.toFinset ≠ df2.cols.toFinset)

/-- Materialization of `list(aKeys - bKeys)` (lines 93 and 103): the rows of
`a` that do not occur in `b`, each distinct row once.  Python's set
iteration order is unspecified; the embedding fixes first-occurrence input
order as one admissible order, and no theorem depends on it. -/
def uniqueRows (a b : Table) : List Row :=
  a.rows.dedup.filter (fun row => decide (row ∉ b.rows))

/-- Lines 91-109: an output table is built for a side exactly when that
side's missing-row count is positive (`if rows_missing_in_file2 > 0`,
`if rows_missing_in_file1 > 0`); the left output uses `df1.columns` as
header, the right output `df2.columns` (lines 94 and 104). -/
def outputTables (df1 df2 : Table) : Option Table × Option Table :=
  ( if 0 < (compareTables df1 df2).leftOnly.card then
      some ⟨df1.cols, uniqueRows df1 df2⟩
    else none,
    if 0 < (compareTables df1 df2).rightOnly.card then
      some ⟨df2.cols, uniqueRows df2 df1⟩
    else none )

/-- Outcome of one invocation of `compare_csv_files`. -/
inductive RunOutcome where
  | readError (cause : String)
  | aborted
  | completed (outLeft outRight : Option Table)
deriving DecidableEq

/-- The whole pipeline of `compare_csv_files` after path handling: read the
two sources (lines 37-53; any read failure prints the cause and returns
before any comparison), check the column-name sets (lines 56-63; on
mismatch the user is prompted and a non-`y` answer aborts), then compare
and conditionally write the two outputs (lines 67-109).  `left` and
`right` are the results of the two `pd.read_csv` calls; `proceed` is
whether the interactive answer at line 60 was `y`. -/
def compare_csv_files (left right : Except String Table) (proceed : Bool) :
    RunOutcome :=
  match left with
  | .error e => .readError e
  | .ok df1 =>
    match right with
    | .error e => .readError e
    | .ok df2 =>
      if schemaWarning df1 df2 && !proceed then .aborted
      else .completed (outputTables df1 df2).1 (outputTables df1 df2).2

/-- The output tables a run produced: none unless the run completed. -/
def RunOutcome.outputs : RunOutcome → Option Table × Option Table
  | .readError _ => (none, none)
  | .aborted => (none, none)
  | .completed l r => (l, r)

/-! Helper lemmas shared by the claim theorems. -/

theorem compareTables_common (df1 df2 : Table) :
    (compareTables df1 df2).common = df1.rowKeys ∩ df2.rowKeys := rfl

theorem compareTables_leftOnly (df1 df2 : Table) :
    (compareTables df1 df2).leftOnly = df1.rowKeys \ df2.rowKeys := rfl

theorem compareTables_rightOnly (df1 df2 : Table) :
    (compareTables df1 df2).rightOnly = df2.rowKeys \ df1.rowKeys := rfl

theorem uniqueRows_mem (a b : Table) (row : Row) :
    row ∈ uniqueRows a b ↔ row ∈ a.rowKeys \ b.rowKeys := by
  simp [uniqueRows, List.mem_dedup, Table.rowKeys, Finset.mem_sdiff]

theorem outputTables_fst (df1 df2 : Table) :
    (outputTables df1 df2).1 =
      if 0 < (compareTables df1 df2).leftOnly.card then
        some ⟨df1.cols, uniqueRows df1 df2⟩
      else none := rfl

theorem outputTables_snd (df1 df2 : Table) :
    (outputTables df1 df2).2 =
      if 0 < (compareTables df1 df2).rightOnly.card then
        some ⟨df2.cols, uniqueRows df2 df1⟩
      else none := rfl

/-- A table with its duplicate rows collapsed; its row-key set is unchanged. -/
def Table.dedupRows (t : Table) : Table := ⟨t.cols, t.rows.dedup⟩

theorem rowKeys_dedupRows (t : Table) : t.dedupRows.rowKeys = t.rowKeys := by
  ext row
  simp [Table.dedupRows, Table.rowKeys, List.mem_dedup]

/-! The claims. -/

/-- C1: for every pair of input tables the three collections partition the
distinct row keys: `common ∪ leftOnly` is exactly the set of distinct row
keys of the left table, `common ∪ rightOnly` exactly that of the right
table, and `leftOnly`, `rightOnly`, `common` are pairwise disjoint. -/
theorem partition_completeness (df1 df2 : Table) :
    (compareTables df1 df2).common ∪ (compareTables df1 df2).leftOnly
        = df1.rowKeys ∧
    (compareTables df1 df2).common ∪ (compareTables df1 df2).rightOnly
        = df2.rowKeys ∧
    (compareTables df1 df2).leftOnly ∩ (compareTables df1 df2).rightOnly
        = ∅ ∧
    (compareTables df1 df2).leftOnly ∩ (compareTables df1 df2).common
        = ∅ := by
  refine ⟨?_, ?_, ?_, ?_⟩ <;>
    · ext row
      simp only [compareTables, Finset.mem_union, Finset.mem_inter,
        Finset.mem_sdiff, Finset.not_mem_empty, iff_false]
      tauto

/-- C3: comparing any table against itself yields empty `leftOnly` and
`rightOnly` and `common` equal to the set of distinct row keys of the
table. -/
theorem compare_self (T : Table) :
    (compareTables T T).leftOnly = ∅ ∧
    (compareTables T T).rightOnly = ∅ ∧
    (compareTables T T).common = T.rowKeys := by
  refine ⟨?_, ?_, ?_⟩ <;> simp [compareTables]

/-- C4: the comparison is symmetric: `leftOnly` of `compare(A, B)` is
`rightOnly` of `compare(B, A)`, and conversely. -/
theorem compare_symm (A B : Table) :
    (compareTables A B).leftOnly = (compareTables B A).rightOnly ∧
    (compareTables A B).rightOnly = (compareTables B A).leftOnly :=
  ⟨rfl, rfl⟩

/-- C2, counterexample: for a left table whose single row is duplicated, the
reported "total rows" count is the raw row count `len(df1) = 2` (line 76),
not the distinct-key count `1` — so it is false that EVERY reported count
reflects distinct row keys when a table contains duplicate rows. -/
theorem every_count_distinct_counterexample :
    (stats ⟨["a"], [["x"], ["x"]]⟩ ⟨["a"], [["x"], ["x"]]⟩).totalRowsLeft = 2 ∧
    (Table.mk ["a"] [["x"], ["x"]]).rowKeys.card = 1 ∧
    (stats ⟨["a"], [["x"], ["x"]]⟩ ⟨["a"], [["x"], ["x"]]⟩).totalRowsLeft ≠
      (Table.mk ["a"] [["x"], ["x"]]).rowKeys.card := by
  refine ⟨by decide, by decide, by decide⟩

/-- C2, amended: the set-derived counts `|common|`, `|leftOnly|`,
`|rightOnly|` reflect distinct row keys — they are unchanged when either
table's duplicate rows are collapsed — while the reported total-row counts
for left and right are the raw row counts, duplicates included. -/
theorem counts_distinct_vs_raw (df1 df2 : Table) :
    (stats df1 df2).identicalRows
        = (stats df1.dedupRows df2.dedupRows).identicalRows ∧
    (stats df1 df2).rowsMissingInRight
        = (stats df1.dedupRows df2.dedupRows).rowsMissingInRight ∧
    (stats df1 df2).rowsMissingInLeft
        = (stats df1.dedupRows df2.dedupRows).rowsMissingInLeft ∧
    (stats df1 df2).totalRowsLeft = df1.rows.length ∧
    (stats df1 df2).totalRowsRight = df2.rows.length := by
  refine ⟨?_, ?_, ?_, rfl, rfl⟩ <;>
    simp [stats, compareTables, rowKeys_dedupRows]

/-- C5: for a table that is one row repeated `N > 1` times, the comparison
counts that involve its side reflect exactly 1 distinct key, never `N`:
against any table `B`, `|common| + |leftOnly| = 1` when it is the left
input, `|common| + |rightOnly| = 1` when it is the right input, and each
of those counts is at most 1. -/
theorem duplicate_collapse (cols : List String) (r : Row) (N : Nat)
    (B : Table) (hN : 1 < N) :
    (compareTables ⟨cols, List.replicate N r⟩ B).common.card +
      (compareTables ⟨cols, List.replicate N r⟩ B).leftOnly.card = 1 ∧
    (compareTables B ⟨cols, List.replicate N r⟩).common.card +
      (compareTables B ⟨cols, List.replicate N r⟩).rightOnly.card = 1 ∧
    (compareTables ⟨cols, List.replicate N r⟩ B).common.card ≤ 1 ∧
    (compareTables ⟨cols, List.replicate N r⟩ B).leftOnly.card ≤ 1 ∧
    (compareTables B ⟨cols, List.replicate N r⟩).rightOnly.card ≤ 1 := by
  have hN0 : N ≠ 0 := by omega
  have hkeys : (Table.mk cols (List.replicate N r)).rowKeys = {r} := by
    simp [Table.rowKeys, List.toFinset_replicate_of_ne_zero hN0]
  refine ⟨?_, ?_, ?_, ?_, ?_⟩
  · rw [compareTables_common, compareTables_leftOnly, hkeys,
      Finset.card_inter_add_card_sdiff, Finset.card_singleton]
  · rw [compareTables_common, compareTables_rightOnly, hkeys,
      Finset.inter_comm, Finset.card_inter_add_card_sdiff,
      Finset.card_singleton]
  · rw [compareTables_common, hkeys]
    simpa using
      Finset.card_le_card
        (Finset.inter_subset_left : ({r} : Finset Row) ∩ B.rowKeys ⊆ {r})
  · rw [compareTables_leftOnly, hkeys]
    simpa using
      Finset.card_le_card
        (Finset.sdiff_subset : ({r} : Finset Row) \ B.rowKeys ⊆ {r})
  · rw [compareTables_rightOnly, hkeys]
    simpa using
      Finset.card_le_card
        (Finset.sdiff_subset : ({r} : Finset Row) \ B.rowKeys ⊆ {r})

theorem duplicate_collapse_witness :
    1 < 3 ∧
    ((compareTables ⟨["a"], List.replicate 3 ["x"]⟩ ⟨["a"], [["y"]]⟩).common.card +
        (compareTables ⟨["a"], List.replicate 3 ["x"]⟩ ⟨["a"], [["y"]]⟩).leftOnly.card = 1 ∧
      (compareTables ⟨["a"], [["y"]]⟩ ⟨["a"], List.replicate 3 ["x"]⟩).common.card +
        (compareTables ⟨["a"], [["y"]]⟩ ⟨["a"], List.replicate 3 ["x"]⟩).rightOnly.card = 1 ∧
      (compareTables ⟨["a"], List.replicate 3 ["x"]⟩ ⟨["a"], [["y"]]⟩).common.card ≤ 1 ∧
      (compareTables ⟨["a"], List.replicate 3 ["x"]⟩ ⟨["a"], [["y"]]⟩).leftOnly.card ≤ 1 ∧
      (compareTables ⟨["a"], [["y"]]⟩ ⟨["a"], List.replicate 3 ["x"]⟩).rightOnly.card ≤ 1) :=
  ⟨by decide, duplicate_collapse ["a"] ["x"] 3 ⟨["a"], [["y"]]⟩ (by decide)⟩

/-- C6: exact-text preservation: every row of every produced output table is
literally a row of the corresponding input table — fields are opaque raw
strings, never trimmed, case-folded or coerced, so a field `"007"` in an
output is the very string read from the input. -/
theorem exact_text (df1 df2 : Table) (t : Table) (row : Row) :
    ((outputTables df1 df2).1 = some t → row ∈ t.rows → row ∈ df1.rows) ∧
    ((outputTables df1 df2).2 = some t → row ∈ t.rows → row ∈ df2.rows) := by
  constructor
  · intro h hrow
    rw [outputTables_fst] at h
    split at h
    · obtain rfl := (Option.some.inj h).symm
      have hmem := (uniqueRows_mem df1 df2 row).mp hrow
      exact List.mem_toFinset.mp (Finset.mem_sdiff.mp hmem).1
    · exact absurd h (by simp)
  · intro h hrow
    rw [outputTables_snd] at h
    split at h
    · obtain rfl := (Option.some.inj h).symm
      have hmem := (uniqueRows_mem df2 df1 row).mp hrow
      exact List.mem_toFinset.mp (Finset.mem_sdiff.mp hmem).1
    · exact absurd h (by simp)

theorem exact_text_witness :
    (outputTables ⟨["id"], [["007"]]⟩ ⟨["id"], []⟩).1
        = some ⟨["id"], [["007"]]⟩ ∧
    ["007"] ∈ (Table.mk ["id"] [["007"]]).rows :=
  ⟨by decide,
    (exact_text ⟨["id"], [["007"]]⟩ ⟨["id"], []⟩ ⟨["id"], [["007"]]⟩ ["007"]).1
      (by decide) (by decide)⟩

/-- C7: an output table is produced for a side if and only if that side has
at least one unique row: the left output exists iff `leftOnly` is nonempty,
the right output iff `rightOnly` is nonempty. -/
theorem output_iff_unique (df1 df2 : Table) :
    ((outputTables df1 df2).1.isSome
        ↔ (compareTables df1 df2).leftOnly.Nonempty) ∧
    ((outputTables df1 df2).2.isSome
        ↔ (compareTables df1 df2).rightOnly.Nonempty) := by
  constructor
  · rw [outputTables_fst, ← Finset.card_pos]
    split <;> simp_all
  · rw [outputTables_snd, ← Finset.card_pos]
    split <;> simp_all

/-- C8: if either source fails to parse, the run ends as a `readError`
carrying the underlying cause, the comparison is aborted and no output
table is written. -/
theorem read_error_aborts (e : String) (right : Except String Table)
    (df1 : Table) (p : Bool) :
    compare_csv_files (.error e) right p = .readError e ∧
    compare_csv_files (.ok df1) (.error e) p = .readError e ∧
    (compare_csv_files (.error e) right p).outputs = (none, none) ∧
    (compare_csv_files (.ok df1) (.error e) p).outputs = (none, none) :=
  ⟨rfl, rfl, rfl, rfl⟩

/-- C10: the schema-mismatch warning fires exactly when the unordered sets
of column names differ; with the same names in a different order no
warning fires, yet rows are compared by positional field sequence, so the
tables `a,b: [1,2]` and `b,a: [2,1]` — the same data under reordered
columns — share no common row. -/
theorem schema_warning_iff_positional (df1 df2 : Table) :
    (schemaWarning df1 df2 = true ↔ df1.cols.toFinset ≠ df2.cols.toFinset) ∧
    schemaWarning ⟨["a", "b"], [["1", "2"]]⟩ ⟨["b", "a"], [["2", "1"]]⟩
        = false ∧
    (compareTables ⟨["a", "b"], [["1", "2"]]⟩
        ⟨["b", "a"], [["2", "1"]]⟩).common = ∅ := by
  refine ⟨by simp [schemaWarning], by decide, by decide⟩
